import Mathlib

set_option maxRecDepth 16384

/-!
Verification of the lexical scanner of the `tofu_interpreter` repository
(`src/token.rs`, `src/lexer.rs`).

The Rust scanner is embedded shallowly: the input `Vec<char>` becomes
`List Char`, the cursor state becomes a `Lexer` structure, and every loop
of the source (`skip_whitespace`, `skip_comment`, `read_num`,
`read_identifier`, `read_str`) as well as the self-recursive `next` is
given an explicit fuel parameter returning `Option` — `none` means the
computation did not finish within the given fuel.  A loop of the source
that terminates is recovered by supplying enough fuel; a loop of the
source that diverges is characterised by returning `none` for every fuel.

Rust's `char::is_alphabetic` tests the Unicode derived property
Alphabetic and `char::is_numeric` the Unicode general categories Nd, Nl
and No; both are embedded exactly, as explicit code-point range tables
(Unicode 14.0.0, the database of the Rust toolchains contemporary with
the source).  `char::is_ascii_whitespace` is modelled exactly (space,
tab, newline, carriage return, form feed).
-/

/-- Token kinds, from `src/token.rs` (the `Str` variant is referenced by
`src/lexer.rs` for string literals). -/
inductive TokenKind where
  | Illegal
  | Identifier
  | Int
  | Str
  | Assign
  | Eq
  | NotEq
  | Plus
  | Minus
  | Bang
  | Asterisk
  | Slash
  | LessThan
  | GreaterThan
  | Comma
  | Semicolon
  | LeftParen
  | RightParen
  | LeftBrace
  | RightBrace
  | If
  | Else
  | True
  | False
  | Return
  | Fn
  | Let
  | Eof
deriving DecidableEq, Repr

/-- Tokens, from `src/token.rs`; the Rust `String` literal is modelled as
`List Char`. -/
structure Token where
  kind : TokenKind
  literal : List Char
deriving DecidableEq, Repr

/-- Keyword table `lookup_identifier` from `src/token.rs`. -/
def lookup_identifier (identifier : List Char) : TokenKind :=
  if identifier = [ 'f', 'n' ] then TokenKind.Fn
  else if identifier = [ 'l', 'e', 't' ] then TokenKind.Let
  else if identifier = [ 'i', 'f' ] then TokenKind.If
  else if identifier = [ 'e', 'l', 's', 'e' ] then TokenKind.Else
  else if identifier = [ 't', 'r', 'u', 'e' ] then TokenKind.True
  else if identifier = [ 'f', 'a', 'l', 's', 'e' ] then TokenKind.False
  else if identifier = [ 'r', 'e', 't', 'u', 'r', 'n' ] then TokenKind.Return
  else TokenKind.Identifier

/-- The scanner state of `src/lexer.rs`: input, position, read position,
current character. -/
structure Lexer where
  input : List Char
  pos : Nat
  read_pos : Nat
  ch : Char
deriving DecidableEq, Repr

/-- Character access `input[i]` with the out-of-range convention of the
source (the null sentinel when `i` is past the end). -/
def chAt (input : List Char) (i : Nat) : Char :=
  input.getD i '\x00'

/-- Cursor advance `Lexer::read_char`. -/
def read_char (l : Lexer) : Lexer :=
  { l with
    ch := if l.input.length ≤ l.read_pos then '\x00' else chAt l.input l.read_pos
    pos := l.read_pos
    read_pos := l.read_pos + 1 }

/-- Non-consuming lookahead `Lexer::peek_char`. -/
def peek_char (l : Lexer) : Char :=
  if l.input.length ≤ l.read_pos then '\x00' else chAt l.input l.read_pos

/-- Construction `Lexer::new` (Rust `char::default()` is the null character). -/
def Lexer.new (input : List Char) : Lexer :=
  read_char { input := input, pos := 0, read_pos := 0, ch := '\x00' }

/-- Rust stdlib `char::is_ascii_whitespace`. -/
def is_ascii_whitespace (c : Char) : Bool :=
  c = ' ' || c = '\t' || c = '\n' || c = '\r' || c = '\x0C'

/-- Membership of a code point in a list of closed ranges. -/
def inRanges (rs : List (Nat × Nat)) (n : Nat) : Bool :=
  rs.any (fun r => r.1 ≤ n && n ≤ r.2)

/-- Code-point ranges of the Unicode 14.0.0 derived property Alphabetic,
the set tested by the Rust stdlib function `char::is_alphabetic` used in
`Lexer::is_letter` (closed intervals over code points). -/
def alphabeticRanges : List (Nat × Nat) :=
  [
    (65, 90), (97, 122), (170, 170), (181, 181), (186, 186), (192, 214),
    (216, 246), (248, 705), (710, 721), (736, 740), (748, 748), (750, 750),
    (837, 837), (880, 884), (886, 887), (890, 893), (895, 895), (902, 902),
    (904, 906), (908, 908), (910, 929), (931, 1013), (1015, 1153), (1162, 1327),
    (1329, 1366), (1369, 1369), (1376, 1416), (1456, 1469), (1471, 1471), (1473, 1474),
    (1476, 1477), (1479, 1479), (1488, 1514), (1519, 1522), (1552, 1562), (1568, 1623),
    (1625, 1631), (1646, 1747), (1749, 1756), (1761, 1768), (1773, 1775), (1786, 1788),
    (1791, 1791), (1808, 1855), (1869, 1969), (1994, 2026), (2036, 2037), (2042, 2042),
    (2048, 2071), (2074, 2092), (2112, 2136), (2144, 2154), (2160, 2183), (2185, 2190),
    (2208, 2249), (2260, 2271), (2275, 2281), (2288, 2363), (2365, 2380), (2382, 2384),
    (2389, 2403), (2417, 2435), (2437, 2444), (2447, 2448), (2451, 2472), (2474, 2480),
    (2482, 2482), (2486, 2489), (2493, 2500), (2503, 2504), (2507, 2508), (2510, 2510),
    (2519, 2519), (2524, 2525), (2527, 2531), (2544, 2545), (2556, 2556), (2561, 2563),
    (2565, 2570), (2575, 2576), (2579, 2600), (2602, 2608), (2610, 2611), (2613, 2614),
    (2616, 2617), (2622, 2626), (2631, 2632), (2635, 2636), (2641, 2641), (2649, 2652),
    (2654, 2654), (2672, 2677), (2689, 2691), (2693, 2701), (2703, 2705), (2707, 2728),
    (2730, 2736), (2738, 2739), (2741, 2745), (2749, 2757), (2759, 2761), (2763, 2764),
    (2768, 2768), (2784, 2787), (2809, 2812), (2817, 2819), (2821, 2828), (2831, 2832),
    (2835, 2856), (2858, 2864), (2866, 2867), (2869, 2873), (2877, 2884), (2887, 2888),
    (2891, 2892), (2902, 2903), (2908, 2909), (2911, 2915), (2929, 2929), (2946, 2947),
    (2949, 2954), (2958, 2960), (2962, 2965), (2969, 2970), (2972, 2972), (2974, 2975),
    (2979, 2980), (2984, 2986), (2990, 3001), (3006, 3010), (3014, 3016), (3018, 3020),
    (3024, 3024), (3031, 3031), (3072, 3075), (3077, 3084), (3086, 3088), (3090, 3112),
    (3114, 3129), (3133, 3140), (3142, 3144), (3146, 3148), (3157, 3158), (3160, 3162),
    (3165, 3165), (3168, 3171), (3200, 3203), (3205, 3212), (3214, 3216), (3218, 3240),
    (3242, 3251), (3253, 3257), (3261, 3268), (3270, 3272), (3274, 3276), (3285, 3286),
    (3293, 3294), (3296, 3299), (3313, 3314), (3328, 3340), (3342, 3344), (3346, 3386),
    (3389, 3396), (3398, 3400), (3402, 3404), (3406, 3406), (3412, 3415), (3423, 3427),
    (3450, 3455), (3457, 3459), (3461, 3478), (3482, 3505), (3507, 3515), (3517, 3517),
    (3520, 3526), (3535, 3540), (3542, 3542), (3544, 3551), (3570, 3571), (3585, 3642),
    (3648, 3654), (3661, 3661), (3713, 3714), (3716, 3716), (3718, 3722), (3724, 3747),
    (3749, 3749), (3751, 3769), (3771, 3773), (3776, 3780), (3782, 3782), (3789, 3789),
    (3804, 3807), (3840, 3840), (3904, 3911), (3913, 3948), (3953, 3969), (3976, 3991),
    (3993, 4028), (4096, 4150), (4152, 4152), (4155, 4159), (4176, 4239), (4250, 4253),
    (4256, 4293), (4295, 4295), (4301, 4301), (4304, 4346), (4348, 4680), (4682, 4685),
    (4688, 4694), (4696, 4696), (4698, 4701), (4704, 4744), (4746, 4749), (4752, 4784),
    (4786, 4789), (4792, 4798), (4800, 4800), (4802, 4805), (4808, 4822), (4824, 4880),
    (4882, 4885), (4888, 4954), (4992, 5007), (5024, 5109), (5112, 5117), (5121, 5740),
    (5743, 5759), (5761, 5786), (5792, 5866), (5870, 5880), (5888, 5907), (5919, 5939),
    (5952, 5971), (5984, 5996), (5998, 6000), (6002, 6003), (6016, 6067), (6070, 6088),
    (6103, 6103), (6108, 6108), (6176, 6264), (6272, 6314), (6320, 6389), (6400, 6430),
    (6432, 6443), (6448, 6456), (6480, 6509), (6512, 6516), (6528, 6571), (6576, 6601),
    (6656, 6683), (6688, 6750), (6753, 6772), (6823, 6823), (6847, 6848), (6860, 6862),
    (6912, 6963), (6965, 6979), (6981, 6988), (7040, 7081), (7084, 7087), (7098, 7141),
    (7143, 7153), (7168, 7222), (7245, 7247), (7258, 7293), (7296, 7304), (7312, 7354),
    (7357, 7359), (7401, 7404), (7406, 7411), (7413, 7414), (7418, 7418), (7424, 7615),
    (7655, 7668), (7680, 7957), (7960, 7965), (7968, 8005), (8008, 8013), (8016, 8023),
    (8025, 8025), (8027, 8027), (8029, 8029), (8031, 8061), (8064, 8116), (8118, 8124),
    (8126, 8126), (8130, 8132), (8134, 8140), (8144, 8147), (8150, 8155), (8160, 8172),
    (8178, 8180), (8182, 8188), (8305, 8305), (8319, 8319), (8336, 8348), (8450, 8450),
    (8455, 8455), (8458, 8467), (8469, 8469), (8473, 8477), (8484, 8484), (8486, 8486),
    (8488, 8488), (8490, 8493), (8495, 8505), (8508, 8511), (8517, 8521), (8526, 8526),
    (8544, 8584), (9398, 9449), (11264, 11492), (11499, 11502), (11506, 11507), (11520, 11557),
    (11559, 11559), (11565, 11565), (11568, 11623), (11631, 11631), (11648, 11670), (11680, 11686),
    (11688, 11694), (11696, 11702), (11704, 11710), (11712, 11718), (11720, 11726), (11728, 11734),
    (11736, 11742), (11744, 11775), (11823, 11823), (12293, 12295), (12321, 12329), (12337, 12341),
    (12344, 12348), (12353, 12438), (12445, 12447), (12449, 12538), (12540, 12543), (12549, 12591),
    (12593, 12686), (12704, 12735), (12784, 12799), (13312, 19903), (19968, 42124), (42192, 42237),
    (42240, 42508), (42512, 42527), (42538, 42539), (42560, 42606), (42612, 42619), (42623, 42735),
    (42775, 42783), (42786, 42888), (42891, 42954), (42960, 42961), (42963, 42963), (42965, 42969),
    (42994, 43013), (43015, 43047), (43072, 43123), (43136, 43203), (43205, 43205), (43250, 43255),
    (43259, 43259), (43261, 43263), (43274, 43306), (43312, 43346), (43360, 43388), (43392, 43442),
    (43444, 43455), (43471, 43471), (43488, 43503), (43514, 43518), (43520, 43574), (43584, 43597),
    (43616, 43638), (43642, 43710), (43712, 43712), (43714, 43714), (43739, 43741), (43744, 43759),
    (43762, 43765), (43777, 43782), (43785, 43790), (43793, 43798), (43808, 43814), (43816, 43822),
    (43824, 43866), (43868, 43881), (43888, 44010), (44032, 55203), (55216, 55238), (55243, 55291),
    (63744, 64109), (64112, 64217), (64256, 64262), (64275, 64279), (64285, 64296), (64298, 64310),
    (64312, 64316), (64318, 64318), (64320, 64321), (64323, 64324), (64326, 64433), (64467, 64829),
    (64848, 64911), (64914, 64967), (65008, 65019), (65136, 65140), (65142, 65276), (65313, 65338),
    (65345, 65370), (65382, 65470), (65474, 65479), (65482, 65487), (65490, 65495), (65498, 65500),
    (65536, 65547), (65549, 65574), (65576, 65594), (65596, 65597), (65599, 65613), (65616, 65629),
    (65664, 65786), (65856, 65908), (66176, 66204), (66208, 66256), (66304, 66335), (66349, 66378),
    (66384, 66426), (66432, 66461), (66464, 66499), (66504, 66511), (66513, 66517), (66560, 66717),
    (66736, 66771), (66776, 66811), (66816, 66855), (66864, 66915), (66928, 66938), (66940, 66954),
    (66956, 66962), (66964, 66965), (66967, 66977), (66979, 66993), (66995, 67001), (67003, 67004),
    (67072, 67382), (67392, 67413), (67424, 67431), (67456, 67461), (67463, 67504), (67506, 67514),
    (67584, 67589), (67592, 67592), (67594, 67637), (67639, 67640), (67644, 67644), (67647, 67669),
    (67680, 67702), (67712, 67742), (67808, 67826), (67828, 67829), (67840, 67861), (67872, 67897),
    (67968, 68023), (68030, 68031), (68096, 68099), (68101, 68102), (68108, 68115), (68117, 68119),
    (68121, 68149), (68192, 68220), (68224, 68252), (68288, 68295), (68297, 68324), (68352, 68405),
    (68416, 68437), (68448, 68466), (68480, 68497), (68608, 68680), (68736, 68786), (68800, 68850),
    (68864, 68903), (69248, 69289), (69291, 69292), (69296, 69297), (69376, 69404), (69415, 69415),
    (69424, 69445), (69488, 69505), (69552, 69572), (69600, 69622), (69632, 69701), (69745, 69749),
    (69762, 69816), (69826, 69826), (69840, 69864), (69888, 69938), (69956, 69959), (69968, 70002),
    (70006, 70006), (70016, 70079), (70081, 70084), (70094, 70095), (70106, 70106), (70108, 70108),
    (70144, 70161), (70163, 70196), (70199, 70199), (70206, 70206), (70272, 70278), (70280, 70280),
    (70282, 70285), (70287, 70301), (70303, 70312), (70320, 70376), (70400, 70403), (70405, 70412),
    (70415, 70416), (70419, 70440), (70442, 70448), (70450, 70451), (70453, 70457), (70461, 70468),
    (70471, 70472), (70475, 70476), (70480, 70480), (70487, 70487), (70493, 70499), (70656, 70721),
    (70723, 70725), (70727, 70730), (70751, 70753), (70784, 70849), (70852, 70853), (70855, 70855),
    (71040, 71093), (71096, 71102), (71128, 71133), (71168, 71230), (71232, 71232), (71236, 71236),
    (71296, 71349), (71352, 71352), (71424, 71450), (71453, 71466), (71488, 71494), (71680, 71736),
    (71840, 71903), (71935, 71942), (71945, 71945), (71948, 71955), (71957, 71958), (71960, 71989),
    (71991, 71992), (71995, 71996), (71999, 72002), (72096, 72103), (72106, 72151), (72154, 72159),
    (72161, 72161), (72163, 72164), (72192, 72242), (72245, 72254), (72272, 72343), (72349, 72349),
    (72368, 72440), (72704, 72712), (72714, 72758), (72760, 72766), (72768, 72768), (72818, 72847),
    (72850, 72871), (72873, 72886), (72960, 72966), (72968, 72969), (72971, 73014), (73018, 73018),
    (73020, 73021), (73023, 73025), (73027, 73027), (73030, 73031), (73056, 73061), (73063, 73064),
    (73066, 73102), (73104, 73105), (73107, 73110), (73112, 73112), (73440, 73462), (73648, 73648),
    (73728, 74649), (74752, 74862), (74880, 75075), (77712, 77808), (77824, 78894), (82944, 83526),
    (92160, 92728), (92736, 92766), (92784, 92862), (92880, 92909), (92928, 92975), (92992, 92995),
    (93027, 93047), (93053, 93071), (93760, 93823), (93952, 94026), (94031, 94087), (94095, 94111),
    (94176, 94177), (94179, 94179), (94192, 94193), (94208, 100343), (100352, 101589), (101632, 101640),
    (110576, 110579), (110581, 110587), (110589, 110590), (110592, 110882), (110928, 110930), (110948, 110951),
    (110960, 111355), (113664, 113770), (113776, 113788), (113792, 113800), (113808, 113817), (113822, 113822),
    (119808, 119892), (119894, 119964), (119966, 119967), (119970, 119970), (119973, 119974), (119977, 119980),
    (119982, 119993), (119995, 119995), (119997, 120003), (120005, 120069), (120071, 120074), (120077, 120084),
    (120086, 120092), (120094, 120121), (120123, 120126), (120128, 120132), (120134, 120134), (120138, 120144),
    (120146, 120485), (120488, 120512), (120514, 120538), (120540, 120570), (120572, 120596), (120598, 120628),
    (120630, 120654), (120656, 120686), (120688, 120712), (120714, 120744), (120746, 120770), (120772, 120779),
    (122624, 122654), (122880, 122886), (122888, 122904), (122907, 122913), (122915, 122916), (122918, 122922),
    (123136, 123180), (123191, 123197), (123214, 123214), (123536, 123565), (123584, 123627), (124896, 124902),
    (124904, 124907), (124909, 124910), (124912, 124926), (124928, 125124), (125184, 125251), (125255, 125255),
    (125259, 125259), (126464, 126467), (126469, 126495), (126497, 126498), (126500, 126500), (126503, 126503),
    (126505, 126514), (126516, 126519), (126521, 126521), (126523, 126523), (126530, 126530), (126535, 126535),
    (126537, 126537), (126539, 126539), (126541, 126543), (126545, 126546), (126548, 126548), (126551, 126551),
    (126553, 126553), (126555, 126555), (126557, 126557), (126559, 126559), (126561, 126562), (126564, 126564),
    (126567, 126570), (126572, 126578), (126580, 126583), (126585, 126588), (126590, 126590), (126592, 126601),
    (126603, 126619), (126625, 126627), (126629, 126633), (126635, 126651), (127280, 127305), (127312, 127337),
    (127344, 127369), (131072, 173791), (173824, 177976), (177984, 178205), (178208, 183969), (183984, 191456),
    (194560, 195101), (196608, 201546)
  ]

/-- Code-point ranges of the Unicode 14.0.0 general categories Nd, Nl and
No, the set tested by the Rust stdlib function `char::is_numeric` used in
`Lexer::is_num` (closed intervals over code points). -/
def numericRanges : List (Nat × Nat) :=
  [
    (48, 57), (178, 179), (185, 185), (188, 190), (1632, 1641), (1776, 1785),
    (1984, 1993), (2406, 2415), (2534, 2543), (2548, 2553), (2662, 2671), (2790, 2799),
    (2918, 2927), (2930, 2935), (3046, 3058), (3174, 3183), (3192, 3198), (3302, 3311),
    (3416, 3422), (3430, 3448), (3558, 3567), (3664, 3673), (3792, 3801), (3872, 3891),
    (4160, 4169), (4240, 4249), (4969, 4988), (5870, 5872), (6112, 6121), (6128, 6137),
    (6160, 6169), (6470, 6479), (6608, 6618), (6784, 6793), (6800, 6809), (6992, 7001),
    (7088, 7097), (7232, 7241), (7248, 7257), (8304, 8304), (8308, 8313), (8320, 8329),
    (8528, 8578), (8581, 8585), (9312, 9371), (9450, 9471), (10102, 10131), (11517, 11517),
    (12295, 12295), (12321, 12329), (12344, 12346), (12690, 12693), (12832, 12841), (12872, 12879),
    (12881, 12895), (12928, 12937), (12977, 12991), (42528, 42537), (42726, 42735), (43056, 43061),
    (43216, 43225), (43264, 43273), (43472, 43481), (43504, 43513), (43600, 43609), (44016, 44025),
    (65296, 65305), (65799, 65843), (65856, 65912), (65930, 65931), (66273, 66299), (66336, 66339),
    (66369, 66369), (66378, 66378), (66513, 66517), (66720, 66729), (67672, 67679), (67705, 67711),
    (67751, 67759), (67835, 67839), (67862, 67867), (68028, 68029), (68032, 68047), (68050, 68095),
    (68160, 68168), (68221, 68222), (68253, 68255), (68331, 68335), (68440, 68447), (68472, 68479),
    (68521, 68527), (68858, 68863), (68912, 68921), (69216, 69246), (69405, 69414), (69457, 69460),
    (69573, 69579), (69714, 69743), (69872, 69881), (69942, 69951), (70096, 70105), (70113, 70132),
    (70384, 70393), (70736, 70745), (70864, 70873), (71248, 71257), (71360, 71369), (71472, 71483),
    (71904, 71922), (72016, 72025), (72784, 72812), (73040, 73049), (73120, 73129), (73664, 73684),
    (74752, 74862), (92768, 92777), (92864, 92873), (93008, 93017), (93019, 93025), (93824, 93846),
    (119520, 119539), (119648, 119672), (120782, 120831), (123200, 123209), (123632, 123641), (125127, 125135),
    (125264, 125273), (126065, 126123), (126125, 126127), (126129, 126132), (126209, 126253), (126255, 126269),
    (127232, 127244), (130032, 130041)
  ]

/-- Rust stdlib `char::is_alphabetic`: the Unicode Alphabetic property. -/
def rust_is_alphabetic (c : Char) : Bool :=
  inRanges alphabeticRanges c.toNat

/-- Rust stdlib `char::is_numeric`: the Unicode number categories. -/
def rust_is_numeric (c : Char) : Bool :=
  inRanges numericRanges c.toNat

/-- Predicate `Lexer::is_letter`: `ch.is_alphabetic() || ch == '_'`. -/
def is_letter (c : Char) : Bool :=
  rust_is_alphabetic c || c = '_'

/-- Predicate `Lexer::is_num`: `ch.is_numeric()`. -/
def is_num (c : Char) : Bool :=
  rust_is_numeric c

/-- Single-character token builder `Lexer::new_token`. -/
def new_token (kind : TokenKind) (ch : Char) : Token :=
  { kind := kind, literal := [ch] }

/-- Loop `Lexer::skip_whitespace`, fuelled. -/
def skip_whitespaceF : Nat → Lexer → Option Lexer
  | 0, _ => none
  | fuel + 1, l =>
    if is_ascii_whitespace l.ch then skip_whitespaceF fuel (read_char l) else some l

/-- Loop `Lexer::skip_comment`, fuelled: advance while the current
character is not a newline. -/
def skip_commentF : Nat → Lexer → Option Lexer
  | 0, _ => none
  | fuel + 1, l =>
    if l.ch ≠ '\n' then skip_commentF fuel (read_char l) else some l

/-- Loop `Lexer::read_num`, fuelled. -/
def read_numF : Nat → Lexer → Option (List Char × Lexer)
  | 0, _ => none
  | fuel + 1, l =>
    if is_num l.ch then
      match read_numF fuel (read_char l) with
      | some (cs, l') => some (l.ch :: cs, l')
      | none => none
    else some ([], l)

/-- Loop `Lexer::read_identifier`, fuelled. -/
def read_identifierF : Nat → Lexer → Option (List Char × Lexer)
  | 0, _ => none
  | fuel + 1, l =>
    if is_letter l.ch then
      match read_identifierF fuel (read_char l) with
      | some (cs, l') => some (l.ch :: cs, l')
      | none => none
    else some ([], l)

/-- Loop `Lexer::read_str`, fuelled: push and advance while the current
character is not a double quote. -/
def read_strF : Nat → Lexer → Option (List Char × Lexer)
  | 0, _ => none
  | fuel + 1, l =>
    if l.ch ≠ '"' then
      match read_strF fuel (read_char l) with
      | some (cs, l') => some (l.ch :: cs, l')
      | none => none
    else some ([], l)

/-- Token production `Lexer::next`, fuelled.  The branches mirror the Rust
`match self.ch`:
the identifier, number and illegal branches `return` without the trailing
`read_char`; all other token branches fall through to it. -/
def nextF : Nat → Lexer → Option (Token × Lexer)
  | 0, _ => none
  | fuel + 1, l0 =>
    match skip_whitespaceF (fuel + 1) l0 with
    | none => none
    | some l =>
      if l.ch = ';' then some (new_token TokenKind.Semicolon l.ch, read_char l)
      else if l.ch = ',' then some (new_token TokenKind.Comma l.ch, read_char l)
      else if l.ch = '(' then some (new_token TokenKind.LeftParen l.ch, read_char l)
      else if l.ch = ')' then some (new_token TokenKind.RightParen l.ch, read_char l)
      else if l.ch = '\x7b' then some (new_token TokenKind.LeftBrace l.ch, read_char l)
      else if l.ch = '\x7d' then some (new_token TokenKind.RightBrace l.ch, read_char l)
      else if l.ch = '+' then some (new_token TokenKind.Plus l.ch, read_char l)
      else if l.ch = '=' then
        if peek_char l = '=' then
          some ({ kind := TokenKind.Eq, literal := [ '=', '=' ] }, read_char (read_char l))
        else some (new_token TokenKind.Assign l.ch, read_char l)
      else if l.ch = '!' then
        if peek_char l = '=' then
          some ({ kind := TokenKind.NotEq, literal := [ '!', '=' ] }, read_char (read_char l))
        else some (new_token TokenKind.Bang l.ch, read_char l)
      else if l.ch = '-' then some (new_token TokenKind.Minus l.ch, read_char l)
      else if l.ch = '/' then
        if peek_char l = '/' then
          match skip_commentF (fuel + 1) l with
          | none => none
          | some l' => nextF fuel l'
        else some (new_token TokenKind.Slash l.ch, read_char l)
      else if l.ch = '*' then some (new_token TokenKind.Asterisk l.ch, read_char l)
      else if l.ch = '<' then some (new_token TokenKind.LessThan l.ch, read_char l)
      else if l.ch = '>' then some (new_token TokenKind.GreaterThan l.ch, read_char l)
      else if l.ch = '"' then
        match read_strF (fuel + 1) (read_char l) with
        | none => none
        | some (literal, l') =>
          some ({ kind := TokenKind.Str, literal := literal }, read_char l')
      else if l.ch = '\x00' then some (new_token TokenKind.Eof '\x00', read_char l)
      else if is_letter l.ch then
        match read_identifierF (fuel + 1) l with
        | none => none
        | some (literal, l') => some ({ kind := lookup_identifier literal, literal := literal }, l')
      else if is_num l.ch then
        match read_numF (fuel + 1) l with
        | none => none
        | some (literal, l') => some ({ kind := TokenKind.Int, literal := literal }, l')
      else some (new_token TokenKind.Illegal l.ch, l)

/-! ### Cursor-state infrastructure

Every state reachable from `Lexer.new` has the canonical form `mkSt i p`:
read position one ahead of position, current character read off the input
(or the sentinel past the end). -/

/-- Canonical cursor state over input `i` at position `p`. -/
def mkSt (i : List Char) (p : Nat) : Lexer :=
  { input := i, pos := p, read_pos := p + 1, ch := chAt i p }

@[simp] lemma mkSt_input (i : List Char) (p : Nat) : (mkSt i p).input = i := rfl

@[simp] lemma mkSt_pos (i : List Char) (p : Nat) : (mkSt i p).pos = p := rfl

@[simp] lemma mkSt_read_pos (i : List Char) (p : Nat) : (mkSt i p).read_pos = p + 1 := rfl

@[simp] lemma mkSt_ch (i : List Char) (p : Nat) : (mkSt i p).ch = chAt i p := rfl

lemma chAt_of_length_le (i : List Char) (p : Nat) (h : i.length ≤ p) :
    chAt i p = '\x00' := by
  simp [chAt, List.getElem?_eq_none h]

lemma read_char_mkSt (i : List Char) (p : Nat) :
    read_char (mkSt i p) = mkSt i (p + 1) := by
  unfold read_char mkSt
  simp only [Lexer.mk.injEq, true_and, and_true]
  split
  · rw [chAt_of_length_le _ _ (by assumption)]
  · rfl

lemma Lexer_new_eq (i : List Char) : Lexer.new i = mkSt i 0 := by
  unfold Lexer.new read_char mkSt
  simp only [Lexer.mk.injEq, true_and, and_true, Nat.zero_add]
  split
  · rw [chAt_of_length_le _ _ (by assumption)]
  · rfl

lemma peek_char_mkSt (i : List Char) (p : Nat) :
    peek_char (mkSt i p) = chAt i (p + 1) := by
  unfold peek_char
  simp only [mkSt_input, mkSt_read_pos]
  split
  · rw [chAt_of_length_le _ _ (by assumption)]
  · rfl

/-! ### Character-class facts

The dispatch in `next` tests the current character against the fixed
tokens before falling through to the letter / digit / illegal branches;
these lemmas record that the classes are disjoint. -/

/-- A character on which a class test evaluates to true differs from any
character on which it evaluates to false. -/
lemma ne_of_eval {f : Char → Bool} {c d : Char} (h : f c = true) (hd : f d = false) :
    c ≠ d := by
  intro he
  rw [he, hd] at h
  exact Bool.noConfusion h

/-- A class test that fails on each of the five ASCII whitespace
characters classifies no whitespace character. -/
lemma not_ws_of_eval {f : Char → Bool} (h5 : f ' ' = false) (h9 : f '\t' = false)
    (hn : f '\n' = false) (hr : f '\r' = false) (hc : f '\x0C' = false)
    {c : Char} (h : f c = true) : is_ascii_whitespace c = false := by
  by_cases hw : is_ascii_whitespace c = true
  · exfalso
    have hx : c = ' ' ∨ c = '\t' ∨ c = '\n' ∨ c = '\r' ∨ c = '\x0C' := by
      simpa [is_ascii_whitespace, or_assoc] using hw
    rcases hx with h1 | h1 | h1 | h1 | h1
    · rw [h1, h5] at h; exact Bool.noConfusion h
    · rw [h1, h9] at h; exact Bool.noConfusion h
    · rw [h1, hn] at h; exact Bool.noConfusion h
    · rw [h1, hr] at h; exact Bool.noConfusion h
    · rw [h1, hc] at h; exact Bool.noConfusion h
  · simpa using hw

lemma is_letter_not_special {c : Char} (h : is_letter c = true) :
    is_ascii_whitespace c = false ∧
    c ≠ ';' ∧ c ≠ ',' ∧ c ≠ '(' ∧ c ≠ ')' ∧ c ≠ '\x7b' ∧ c ≠ '\x7d' ∧ c ≠ '+' ∧
    c ≠ '=' ∧ c ≠ '!' ∧ c ≠ '-' ∧ c ≠ '/' ∧ c ≠ '*' ∧ c ≠ '<' ∧ c ≠ '>' ∧
    c ≠ '"' ∧ c ≠ '\x00' :=
  ⟨not_ws_of_eval (by decide) (by decide) (by decide) (by decide) (by decide) h,
    ne_of_eval h (by decide), ne_of_eval h (by decide), ne_of_eval h (by decide),
    ne_of_eval h (by decide), ne_of_eval h (by decide), ne_of_eval h (by decide),
    ne_of_eval h (by decide), ne_of_eval h (by decide), ne_of_eval h (by decide),
    ne_of_eval h (by decide), ne_of_eval h (by decide), ne_of_eval h (by decide),
    ne_of_eval h (by decide), ne_of_eval h (by decide), ne_of_eval h (by decide),
    ne_of_eval h (by decide)⟩

/-- Numeric characters are not whitespace and not any of the dispatch
characters.  (A numeric character can be a letter — the Unicode Nl
category is both Alphabetic and numeric — so the letter test is a
separate hypothesis wherever the number branch is reached.) -/
lemma is_num_not_special {c : Char} (h : is_num c = true) :
    is_ascii_whitespace c = false ∧
    c ≠ ';' ∧ c ≠ ',' ∧ c ≠ '(' ∧ c ≠ ')' ∧ c ≠ '\x7b' ∧ c ≠ '\x7d' ∧ c ≠ '+' ∧
    c ≠ '=' ∧ c ≠ '!' ∧ c ≠ '-' ∧ c ≠ '/' ∧ c ≠ '*' ∧ c ≠ '<' ∧ c ≠ '>' ∧
    c ≠ '"' ∧ c ≠ '\x00' :=
  ⟨not_ws_of_eval (by decide) (by decide) (by decide) (by decide) (by decide) h,
    ne_of_eval h (by decide), ne_of_eval h (by decide), ne_of_eval h (by decide),
    ne_of_eval h (by decide), ne_of_eval h (by decide), ne_of_eval h (by decide),
    ne_of_eval h (by decide), ne_of_eval h (by decide), ne_of_eval h (by decide),
    ne_of_eval h (by decide), ne_of_eval h (by decide), ne_of_eval h (by decide),
    ne_of_eval h (by decide), ne_of_eval h (by decide), ne_of_eval h (by decide),
    ne_of_eval h (by decide)⟩

/-- Whitespace skipping is the identity when the current character is not
whitespace. -/
lemma skip_whitespaceF_not_ws {l : Lexer} (fuel : Nat)
    (h : is_ascii_whitespace l.ch = false) :
    skip_whitespaceF (fuel + 1) l = some l := by
  unfold skip_whitespaceF
  simp [h]

/-! ### Divergence of the unterminated-string and comment loops

The loops `read_str` and `skip_comment` test only for their terminator
character, not for the end-of-input sentinel, so when the terminator never
occurs they advance past the end of the input forever. -/

/-- When no closing double quote occurs at or after position `p`,
`read_str` exhausts any amount of fuel. -/
lemma read_strF_none (i : List Char) :
    ∀ fuel p, (∀ q, p ≤ q → chAt i q ≠ '"') → read_strF fuel (mkSt i p) = none := by
  intro fuel
  induction fuel with
  | zero => intro p _; rfl
  | succ fuel ih =>
    intro p hq
    unfold read_strF
    simp only [mkSt_ch, ne_eq, hq p (Nat.le_refl p), not_false_eq_true, if_true,
      read_char_mkSt]
    rw [ih (p + 1) (fun q h => hq q (Nat.le_trans (Nat.le_succ p) h))]

/-- When no newline occurs at or after position `p`, `skip_comment`
exhausts any amount of fuel. -/
lemma skip_commentF_none (i : List Char) :
    ∀ fuel p, (∀ q, p ≤ q → chAt i q ≠ '\n') → skip_commentF fuel (mkSt i p) = none := by
  intro fuel
  induction fuel with
  | zero => intro p _; rfl
  | succ fuel ih =>
    intro p hq
    unfold skip_commentF
    simp only [mkSt_ch, ne_eq, hq p (Nat.le_refl p), not_false_eq_true, if_true,
      read_char_mkSt]
    rw [ih (p + 1) (fun q h => hq q (Nat.le_trans (Nat.le_succ p) h))]

/-- Behaviour of `next` at end of input: the Eof token carries the
one-character null literal and the position counters advance by one while
the current character stays the sentinel. -/
lemma nextF_eof (i : List Char) (p fuel : Nat) (h : i.length ≤ p) :
    nextF (fuel + 1) (mkSt i p) =
      some (new_token TokenKind.Eof '\x00', mkSt i (p + 1)) := by
  have hch : chAt i p = '\x00' := chAt_of_length_le i p h
  unfold nextF
  rw [skip_whitespaceF_not_ws _ (by rw [mkSt_ch, hch]; decide)]
  simp [mkSt_ch, hch, read_char_mkSt]

/-- Dispatch of `next` on a double quote: advance past the quote and run
`read_str`. -/
lemma nextF_quote (i : List Char) (p fuel : Nat) (h : chAt i p = '"') :
    nextF (fuel + 1) (mkSt i p) =
      match read_strF (fuel + 1) (mkSt i (p + 1)) with
      | none => none
      | some (lit, l') => some ({ kind := TokenKind.Str, literal := lit }, read_char l') := by
  conv_lhs => unfold nextF
  rw [skip_whitespaceF_not_ws _ (by rw [mkSt_ch, h]; decide)]
  simp [mkSt_ch, h, read_char_mkSt]

/-- Dispatch of `next` on a line comment: run `skip_comment`, then restart
`next` on the remaining state. -/
lemma nextF_comment (i : List Char) (p fuel : Nat) (h : chAt i p = '/')
    (h2 : chAt i (p + 1) = '/') :
    nextF (fuel + 1) (mkSt i p) =
      match skip_commentF (fuel + 1) (mkSt i p) with
      | none => none
      | some l' => nextF fuel l' := by
  conv_lhs => unfold nextF
  rw [skip_whitespaceF_not_ws _ (by rw [mkSt_ch, h]; decide)]
  simp [mkSt_ch, h, peek_char_mkSt, h2]

/-! ### Claims -/

/-- C1: the spec says an unrecognized character is reported as an Illegal
token and the cursor is advanced past it, so that scanning `@` yields
Illegal then Eof.  In the code the illegal branch returns before the
trailing `read_char`, so `next` on input `@` returns Illegal with the
cursor state completely unchanged: every subsequent call returns the same
Illegal token again and end-of-input is never reached. -/
theorem C1_illegal_does_not_advance :
    ∀ fuel, nextF (fuel + 1) (Lexer.new [ '@' ]) =
      some (new_token TokenKind.Illegal '@', Lexer.new [ '@' ]) := by
  intro fuel
  rfl

/-- C2: the spec claims that for any finite input repeated calls to `next`
reach end-of-input finitely and stay there.  On the input `//x` — a line
comment not followed by a newline — the very first call to `next` never
terminates: `skip_comment` only tests for a newline, so it runs past the
end of input forever, and `nextF` returns `none` for every fuel. -/
theorem C2_termination_fails_on_unterminated_comment :
    ∀ fuel, nextF fuel (Lexer.new [ '/', '/', 'x' ]) = none := by
  intro fuel
  cases fuel with
  | zero => rfl
  | succ fuel =>
    rw [Lexer_new_eq, nextF_comment _ _ _ (by decide) (by decide)]
    rw [skip_commentF_none _ (fuel + 1) 0 ?_]
    intro q _
    by_cases h3 : 3 ≤ q
    · rw [chAt_of_length_le _ _ (by simpa using h3)]
      decide
    · interval_cases q <;> decide

/-- C3: the spec says a string literal with no closing quote terminates
the call, yielding a Str token holding everything up to end-of-input.  In
the code `read_str` only tests for a closing quote, so on input `"abc`
the call to `next` never terminates: `nextF` returns `none` for every
fuel. -/
theorem C3_unterminated_string_diverges :
    ∀ fuel, nextF fuel (Lexer.new [ '"', 'a', 'b', 'c' ]) = none := by
  intro fuel
  cases fuel with
  | zero => rfl
  | succ fuel =>
    rw [Lexer_new_eq, nextF_quote _ _ _ (by decide)]
    rw [read_strF_none _ (fuel + 1) 1 ?_]
    intro q hq
    by_cases h4 : 4 ≤ q
    · rw [chAt_of_length_le _ _ (by simpa using h4)]
      decide
    · interval_cases q <;> decide

/-- C4 counterexample: the claim says the end-of-input token's text is the
empty string; on the empty input the token returned by `next` carries the
one-character null literal, which is not empty. -/
theorem C4_eof_literal_not_empty :
    nextF 1 (Lexer.new []) = some ({ kind := TokenKind.Eof, literal := [ '\x00' ] }, mkSt [] 1)
      ∧ [ '\x00' ] ≠ ([] : List Char) := by
  constructor
  · rfl
  · decide

/-- C4 (amended): at end of input `next` returns the Eof token whose text
is the one-character null literal (not the empty string); the position
counters advance by one but the state remains at end of input, so repeated
calls keep returning the Eof token. -/
theorem C4_eof_token_amended :
    ∀ (i : List Char) (p fuel : Nat), i.length ≤ p →
      nextF (fuel + 1) (mkSt i p) = some (new_token TokenKind.Eof '\x00', mkSt i (p + 1))
        ∧ i.length ≤ p + 1 := by
  intro i p fuel h
  exact ⟨nextF_eof i p fuel h, Nat.le_trans h (Nat.le_succ p)⟩

/-- C4 witness: the amended theorem applied to the empty input. -/
theorem C4_eof_token_amended_witness :
    nextF 1 (mkSt [] 0) = some (new_token TokenKind.Eof '\x00', mkSt [] 1)
      ∧ ([] : List Char).length ≤ 0 + 1 :=
  C4_eof_token_amended [] 0 0 (by decide)

/-- C5: the spec claims every single-scalar input scans without failure.
For the single character `"` (an opening quote with no closing quote) the
call to `next` never terminates: `nextF` returns `none` for every fuel. -/
theorem C5_single_quote_input_diverges :
    ∀ fuel, nextF fuel (Lexer.new [ '"' ]) = none := by
  intro fuel
  cases fuel with
  | zero => rfl
  | succ fuel =>
    rw [Lexer_new_eq, nextF_quote _ _ _ (by decide)]
    rw [read_strF_none _ (fuel + 1) 1 ?_]
    intro q hq
    rw [chAt_of_length_le _ _ (by simpa using hq)]
    decide

/-- C9: the spec says a `//` comment is consumed up to the next newline or
up to end-of-input, and scanning continues.  When no newline follows the
comment, `skip_comment` never terminates — on input `//a` the call to
`next` returns `none` for every fuel, so the end-of-input half of the
claim is false. -/
theorem C9_comment_to_eof_diverges :
    ∀ fuel, nextF fuel (Lexer.new [ '/', '/', 'a' ]) = none := by
  intro fuel
  cases fuel with
  | zero => rfl
  | succ fuel =>
    rw [Lexer_new_eq, nextF_comment _ _ _ (by decide) (by decide)]
    rw [skip_commentF_none _ (fuel + 1) 0 ?_]
    intro q _
    by_cases h3 : 3 ≤ q
    · rw [chAt_of_length_le _ _ (by simpa using h3)]
      decide
    · interval_cases q <;> decide

/-- Decomposition of a cons-shaped suffix of the input: the character under
the cursor and the remaining suffix. -/
lemma drop_cons_parts {i t : List Char} {p : Nat} {c : Char} (h : i.drop p = c :: t) :
    chAt i p = c ∧ i.drop (p + 1) = t := by
  have hp : p < i.length := by
    by_contra hnot
    rw [List.drop_eq_nil_of_le (by omega)] at h
    exact List.noConfusion h
  have hd := List.drop_eq_getElem_cons hp
  rw [hd] at h
  injection h with h1 h2
  refine ⟨?_, h2⟩
  simp [chAt, List.getElem?_eq_getElem hp, h1]

/-- Run lemma for `read_identifier`: on a maximal run of letter characters
the loop returns exactly that run and stops at its end. -/
lemma read_identifierF_run :
    ∀ (run : List Char) (rest : List Char) (i : List Char) (p fuel : Nat),
      i.drop p = run ++ rest →
      (∀ c ∈ run, is_letter c = true) →
      is_letter (chAt i (p + run.length)) = false →
      read_identifierF (run.length + fuel + 1) (mkSt i p) =
        some (run, mkSt i (p + run.length)) := by
  intro run
  induction run with
  | nil =>
    intro rest i p fuel _ _ hstop
    unfold read_identifierF
    simp only [List.length_nil, Nat.add_zero] at hstop ⊢
    simp [mkSt_ch, hstop]
  | cons c run ih =>
    intro rest i p fuel hdrop hall hstop
    obtain ⟨hc, hdrop1⟩ := drop_cons_parts hdrop
    have hlen : (c :: run).length + fuel + 1 = (run.length + fuel + 1) + 1 := by
      simp [List.length_cons]
      omega
    rw [hlen]
    unfold read_identifierF
    rw [mkSt_ch, hc, if_pos (hall c (List.mem_cons_self c run)), read_char_mkSt]
    rw [ih rest i (p + 1) fuel hdrop1 (fun d hd => hall d (List.mem_cons_of_mem c hd))
      (by rw [show p + 1 + run.length = p + (c :: run).length by simp [List.length_cons]; omega]
          exact hstop)]
    rw [show p + 1 + run.length = p + (c :: run).length by simp [List.length_cons]; omega]

/-- Run lemma for `read_num`: on a maximal run of digit characters the
loop returns exactly that run and stops at its end. -/
lemma read_numF_run :
    ∀ (run : List Char) (rest : List Char) (i : List Char) (p fuel : Nat),
      i.drop p = run ++ rest →
      (∀ c ∈ run, is_num c = true) →
      is_num (chAt i (p + run.length)) = false →
      read_numF (run.length + fuel + 1) (mkSt i p) =
        some (run, mkSt i (p + run.length)) := by
  intro run
  induction run with
  | nil =>
    intro rest i p fuel _ _ hstop
    unfold read_numF
    simp only [List.length_nil, Nat.add_zero] at hstop ⊢
    simp [mkSt_ch, hstop]
  | cons c run ih =>
    intro rest i p fuel hdrop hall hstop
    obtain ⟨hc, hdrop1⟩ := drop_cons_parts hdrop
    have hlen : (c :: run).length + fuel + 1 = (run.length + fuel + 1) + 1 := by
      simp [List.length_cons]
      omega
    rw [hlen]
    unfold read_numF
    rw [mkSt_ch, hc, if_pos (hall c (List.mem_cons_self c run)), read_char_mkSt]
    rw [ih rest i (p + 1) fuel hdrop1 (fun d hd => hall d (List.mem_cons_of_mem c hd))
      (by rw [show p + 1 + run.length = p + (c :: run).length by simp [List.length_cons]; omega]
          exact hstop)]
    rw [show p + 1 + run.length = p + (c :: run).length by simp [List.length_cons]; omega]

/-- Dispatch of `next` on a letter character: run `read_identifier` and
classify through the keyword table, with no trailing advance. -/
lemma nextF_letter (i : List Char) (p fuel : Nat) (h : is_letter (chAt i p) = true) :
    nextF (fuel + 1) (mkSt i p) =
      match read_identifierF (fuel + 1) (mkSt i p) with
      | none => none
      | some (lit, l') => some ({ kind := lookup_identifier lit, literal := lit }, l') := by
  obtain ⟨hws, h1, h2, h3, h4, h5, h6, h7, h8, h9, h10, h11, h12, h13, h14, h15, h16⟩ :=
    is_letter_not_special h
  conv_lhs => unfold nextF
  rw [skip_whitespaceF_not_ws _ (by rw [mkSt_ch]; exact hws)]
  simp [mkSt_ch, h, h1, h2, h3, h4, h5, h6, h7, h8, h9, h10, h11, h12, h13, h14, h15, h16]

/-- Dispatch of `next` on a digit character: run `read_num`, with no
trailing advance. -/
lemma nextF_num (i : List Char) (p fuel : Nat) (h : is_num (chAt i p) = true)
    (hlet : is_letter (chAt i p) = false) :
    nextF (fuel + 1) (mkSt i p) =
      match read_numF (fuel + 1) (mkSt i p) with
      | none => none
      | some (lit, l') => some ({ kind := TokenKind.Int, literal := lit }, l') := by
  obtain ⟨hws, h1, h2, h3, h4, h5, h6, h7, h8, h9, h10, h11, h12, h13, h14, h15, h16⟩ :=
    is_num_not_special h
  conv_lhs => unfold nextF
  rw [skip_whitespaceF_not_ws _ (by rw [mkSt_ch]; exact hws)]
  simp [mkSt_ch, h, hlet, h1, h2, h3, h4, h5, h6, h7, h8, h9, h10, h11, h12, h13, h14, h15, h16]

/-- C6: two-character lookahead operators.  On `=` the scanner peeks: a
second `=` gives an Eq token with text `==` and consumes both characters;
otherwise an Assign token with text `=` consuming one.  On `!` a peeked
`=` gives NotEq with text `!=` consuming both; otherwise Bang with text
`!` consuming one. -/
theorem C6_lookahead_operators :
    ∀ (i : List Char) (p fuel : Nat),
      (chAt i p = '=' → chAt i (p + 1) = '=' →
        nextF (fuel + 1) (mkSt i p) =
          some ({ kind := TokenKind.Eq, literal := [ '=', '=' ] }, mkSt i (p + 2)))
      ∧ (chAt i p = '=' → chAt i (p + 1) ≠ '=' →
        nextF (fuel + 1) (mkSt i p) =
          some (new_token TokenKind.Assign '=', mkSt i (p + 1)))
      ∧ (chAt i p = '!' → chAt i (p + 1) = '=' →
        nextF (fuel + 1) (mkSt i p) =
          some ({ kind := TokenKind.NotEq, literal := [ '!', '=' ] }, mkSt i (p + 2)))
      ∧ (chAt i p = '!' → chAt i (p + 1) ≠ '=' →
        nextF (fuel + 1) (mkSt i p) =
          some (new_token TokenKind.Bang '!', mkSt i (p + 1))) := by
  intro i p fuel
  refine ⟨?_, ?_, ?_, ?_⟩ <;> intro h h2 <;>
    · conv_lhs => unfold nextF
      rw [skip_whitespaceF_not_ws _ (by rw [mkSt_ch, h]; decide)]
      simp [mkSt_ch, h, peek_char_mkSt, h2, read_char_mkSt, new_token]

/-- C6 witness: the lookahead cases evaluated on concrete inputs. -/
theorem C6_lookahead_operators_witness :
    nextF 1 (mkSt [ '=', '=' ] 0) =
      some ({ kind := TokenKind.Eq, literal := [ '=', '=' ] }, mkSt [ '=', '=' ] 2)
    ∧ nextF 1 (mkSt [ '!' ] 0) = some (new_token TokenKind.Bang '!', mkSt [ '!' ] 1) :=
  ⟨(C6_lookahead_operators [ '=', '=' ] 0 0).1 (by decide) (by decide),
   (C6_lookahead_operators [ '!' ] 0 0).2.2.2 (by decide) (by decide)⟩

/-- C7: keyword precedence.  A maximal run of letter/underscore characters
is scanned as a single token whose text is exactly the run and whose kind
is the keyword table's result; the keyword table maps each of the seven
reserved spellings to its reserved kind and every other spelling to
Identifier. -/
theorem C7_keyword_precedence :
    ∀ (run rest i : List Char) (p fuel : Nat),
      run ≠ [] →
      (∀ c ∈ run, is_letter c = true) →
      i.drop p = run ++ rest →
      is_letter (chAt i (p + run.length)) = false →
      (nextF (run.length + fuel + 1) (mkSt i p) =
          some ({ kind := lookup_identifier run, literal := run }, mkSt i (p + run.length)))
      ∧ (lookup_identifier [ 'f', 'n' ] = TokenKind.Fn
        ∧ lookup_identifier [ 'l', 'e', 't' ] = TokenKind.Let
        ∧ lookup_identifier [ 'i', 'f' ] = TokenKind.If
        ∧ lookup_identifier [ 'e', 'l', 's', 'e' ] = TokenKind.Else
        ∧ lookup_identifier [ 't', 'r', 'u', 'e' ] = TokenKind.True
        ∧ lookup_identifier [ 'f', 'a', 'l', 's', 'e' ] = TokenKind.False
        ∧ lookup_identifier [ 'r', 'e', 't', 'u', 'r', 'n' ] = TokenKind.Return)
      ∧ (∀ s : List Char,
          s ≠ [ 'f', 'n' ] → s ≠ [ 'l', 'e', 't' ] → s ≠ [ 'i', 'f' ] →
          s ≠ [ 'e', 'l', 's', 'e' ] → s ≠ [ 't', 'r', 'u', 'e' ] →
          s ≠ [ 'f', 'a', 'l', 's', 'e' ] → s ≠ [ 'r', 'e', 't', 'u', 'r', 'n' ] →
          lookup_identifier s = TokenKind.Identifier) := by
  intro run rest i p fuel hne hall hdrop hstop
  refine ⟨?_, by decide, ?_⟩
  · have hch : is_letter (chAt i p) = true := by
      cases run with
      | nil => exact absurd rfl hne
      | cons c run =>
        obtain ⟨hc, _⟩ := drop_cons_parts hdrop
        rw [hc]
        exact hall c (List.mem_cons_self c run)
    rw [show run.length + fuel + 1 = (run.length + fuel) + 1 from rfl,
      nextF_letter i p (run.length + fuel) hch]
    rw [show (run.length + fuel) + 1 = run.length + fuel + 1 from rfl,
      read_identifierF_run run rest i p fuel hdrop hall hstop]
  · intro s hs1 hs2 hs3 hs4 hs5 hs6 hs7
    unfold lookup_identifier
    rw [if_neg hs1, if_neg hs2, if_neg hs3, if_neg hs4, if_neg hs5, if_neg hs6, if_neg hs7]

/-- C7 witness: the reserved spelling `fn` as the whole input scans to the
Fn keyword token, and the spelling `x` scans to an Identifier token. -/
theorem C7_keyword_precedence_witness :
    nextF 3 (mkSt [ 'f', 'n' ] 0) =
      some ({ kind := lookup_identifier [ 'f', 'n' ], literal := [ 'f', 'n' ] },
        mkSt [ 'f', 'n' ] 2)
    ∧ nextF 2 (mkSt [ 'x' ] 0) =
      some ({ kind := lookup_identifier [ 'x' ], literal := [ 'x' ] }, mkSt [ 'x' ] 1) :=
  ⟨(C7_keyword_precedence [ 'f', 'n' ] [] [ 'f', 'n' ] 0 0
      (by decide) (by decide) (by decide) (by decide)).1,
   (C7_keyword_precedence [ 'x' ] [] [ 'x' ] 0 0
      (by decide) (by decide) (by decide) (by decide)).1⟩

/-- Every Alphabetic range starts at code 65 or above (the first ASCII
letter), so no character below code 65 is alphabetic. -/
lemma alphabeticRanges_lo : ∀ r ∈ alphabeticRanges, 65 ≤ r.1 := by decide

/-- Characters with code below 65 — in particular the ASCII digits — are
not letters. -/
lemma is_letter_of_lt_65 {c : Char} (hc : c.toNat < 65) : is_letter c = false := by
  unfold is_letter rust_is_alphabetic inRanges
  simp only [Bool.or_eq_false_iff]
  constructor
  · rw [List.any_eq_false]
    intro r hr
    have hlo := alphabeticRanges_lo r hr
    have : ¬(r.1 ≤ c.toNat) := by omega
    simp [this]
  · simp only [decide_eq_false_iff_not]
    intro he
    rw [he] at hc
    exact absurd hc (by decide)

/-- ASCII decimal digits pass the numeric test: the range 48-57 is in the
numeric table. -/
lemma is_num_of_digit {c : Char} (hc : Char.isDigit c = true) : is_num c = true := by
  unfold is_num rust_is_numeric inRanges
  rw [List.any_eq_true]
  refine ⟨(48, 57), by decide, ?_⟩
  simp [Char.isDigit, UInt32.le_def, BitVec.le_def, UInt32.toNat] at hc
  simp [Char.toNat, UInt32.toNat]
  omega

/-- ASCII decimal digits are not letters. -/
lemma digit_not_letter {c : Char} (hc : Char.isDigit c = true) : is_letter c = false := by
  apply is_letter_of_lt_65
  simp [Char.isDigit, UInt32.le_def, BitVec.le_def, UInt32.toNat] at hc
  simp [Char.toNat, UInt32.toNat]
  omega

/-- The keyword table never yields the Int kind. -/
lemma lookup_identifier_ne_int (s : List Char) : lookup_identifier s ≠ TokenKind.Int := by
  unfold lookup_identifier
  split_ifs <;> decide

/-- Only-if direction of the integer-literal dispatch: when `next`
dispatches on a non-whitespace, non-comment-start character and returns
an Int token, that character passed the numeric test and failed the
letter test. -/
lemma nextF_int_start :
    ∀ (i : List Char) (p fuel : Nat) (t : Token) (l' : Lexer),
      is_ascii_whitespace (chAt i p) = false →
      (chAt i p = '/' → chAt i (p + 1) = '/' → False) →
      nextF (fuel + 1) (mkSt i p) = some (t, l') →
      t.kind = TokenKind.Int →
      is_num (chAt i p) = true ∧ is_letter (chAt i p) = false := by
  intro i p fuel t l' hws hcom h hkind
  unfold nextF at h
  split at h
  · exact Option.noConfusion h
  · rename_i l1 hsw
    rw [skip_whitespaceF_not_ws _ (by rw [mkSt_ch]; exact hws)] at hsw
    have hl1 : l1 = mkSt i p := (Option.some.inj hsw).symm
    subst hl1
    by_cases c1 : (mkSt i p).ch = ';'
    · rw [if_pos c1] at h
      simp only [Option.some.injEq, Prod.mk.injEq] at h
      rw [← h.1] at hkind
      simp [new_token] at hkind
    rw [if_neg c1] at h
    by_cases c2 : (mkSt i p).ch = ','
    · rw [if_pos c2] at h
      simp only [Option.some.injEq, Prod.mk.injEq] at h
      rw [← h.1] at hkind
      simp [new_token] at hkind
    rw [if_neg c2] at h
    by_cases c3 : (mkSt i p).ch = '('
    · rw [if_pos c3] at h
      simp only [Option.some.injEq, Prod.mk.injEq] at h
      rw [← h.1] at hkind
      simp [new_token] at hkind
    rw [if_neg c3] at h
    by_cases c4 : (mkSt i p).ch = ')'
    · rw [if_pos c4] at h
      simp only [Option.some.injEq, Prod.mk.injEq] at h
      rw [← h.1] at hkind
      simp [new_token] at hkind
    rw [if_neg c4] at h
    by_cases c5 : (mkSt i p).ch = '\x7b'
    · rw [if_pos c5] at h
      simp only [Option.some.injEq, Prod.mk.injEq] at h
      rw [← h.1] at hkind
      simp [new_token] at hkind
    rw [if_neg c5] at h
    by_cases c6 : (mkSt i p).ch = '\x7d'
    · rw [if_pos c6] at h
      simp only [Option.some.injEq, Prod.mk.injEq] at h
      rw [← h.1] at hkind
      simp [new_token] at hkind
    rw [if_neg c6] at h
    by_cases c7 : (mkSt i p).ch = '+'
    · rw [if_pos c7] at h
      simp only [Option.some.injEq, Prod.mk.injEq] at h
      rw [← h.1] at hkind
      simp [new_token] at hkind
    rw [if_neg c7] at h
    by_cases c8 : (mkSt i p).ch = '='
    · rw [if_pos c8] at h
      by_cases c8b : peek_char (mkSt i p) = '='
      · rw [if_pos c8b] at h
        simp only [Option.some.injEq, Prod.mk.injEq] at h
        rw [← h.1] at hkind
        simp at hkind
      · rw [if_neg c8b] at h
        simp only [Option.some.injEq, Prod.mk.injEq] at h
        rw [← h.1] at hkind
        simp [new_token] at hkind
    rw [if_neg c8] at h
    by_cases c9 : (mkSt i p).ch = '!'
    · rw [if_pos c9] at h
      by_cases c9b : peek_char (mkSt i p) = '='
      · rw [if_pos c9b] at h
        simp only [Option.some.injEq, Prod.mk.injEq] at h
        rw [← h.1] at hkind
        simp at hkind
      · rw [if_neg c9b] at h
        simp only [Option.some.injEq, Prod.mk.injEq] at h
        rw [← h.1] at hkind
        simp [new_token] at hkind
    rw [if_neg c9] at h
    by_cases c10 : (mkSt i p).ch = '-'
    · rw [if_pos c10] at h
      simp only [Option.some.injEq, Prod.mk.injEq] at h
      rw [← h.1] at hkind
      simp [new_token] at hkind
    rw [if_neg c10] at h
    by_cases c11 : (mkSt i p).ch = '/'
    · by_cases c11b : peek_char (mkSt i p) = '/'
      · exact (hcom (by rwa [mkSt_ch] at c11) (by rwa [peek_char_mkSt] at c11b)).elim
      · rw [if_pos c11, if_neg c11b] at h
        simp only [Option.some.injEq, Prod.mk.injEq] at h
        rw [← h.1] at hkind
        simp [new_token] at hkind
    rw [if_neg c11] at h
    by_cases c12 : (mkSt i p).ch = '*'
    · rw [if_pos c12] at h
      simp only [Option.some.injEq, Prod.mk.injEq] at h
      rw [← h.1] at hkind
      simp [new_token] at hkind
    rw [if_neg c12] at h
    by_cases c13 : (mkSt i p).ch = '<'
    · rw [if_pos c13] at h
      simp only [Option.some.injEq, Prod.mk.injEq] at h
      rw [← h.1] at hkind
      simp [new_token] at hkind
    rw [if_neg c13] at h
    by_cases c14 : (mkSt i p).ch = '>'
    · rw [if_pos c14] at h
      simp only [Option.some.injEq, Prod.mk.injEq] at h
      rw [← h.1] at hkind
      simp [new_token] at hkind
    rw [if_neg c14] at h
    by_cases c15 : (mkSt i p).ch = '"'
    · rw [if_pos c15] at h
      cases heq : read_strF (fuel + 1) (read_char (mkSt i p)) with
      | none => rw [heq] at h; exact absurd h (by simp)
      | some r =>
        obtain ⟨lit, l2⟩ := r
        rw [heq] at h
        have h2 : some ({ kind := TokenKind.Str, literal := lit }, read_char l2) =
            some (t, l') := h
        simp only [Option.some.injEq, Prod.mk.injEq] at h2
        rw [← h2.1] at hkind
        simp at hkind
    rw [if_neg c15] at h
    by_cases c16 : (mkSt i p).ch = '\x00'
    · rw [if_pos c16] at h
      simp only [Option.some.injEq, Prod.mk.injEq] at h
      rw [← h.1] at hkind
      simp [new_token] at hkind
    rw [if_neg c16] at h
    by_cases c17 : is_letter (mkSt i p).ch = true
    · rw [if_pos c17] at h
      cases heq : read_identifierF (fuel + 1) (mkSt i p) with
      | none => rw [heq] at h; exact absurd h (by simp)
      | some r =>
        obtain ⟨lit, l2⟩ := r
        rw [heq] at h
        have h2 : some ({ kind := lookup_identifier lit, literal := lit }, l2) =
            some (t, l') := h
        simp only [Option.some.injEq, Prod.mk.injEq] at h2
        rw [← h2.1] at hkind
        exact absurd (show lookup_identifier lit = TokenKind.Int by simpa using hkind)
          (lookup_identifier_ne_int lit)
    rw [if_neg c17] at h
    by_cases c18 : is_num (mkSt i p).ch = true
    · refine ⟨by rwa [mkSt_ch] at c18, ?_⟩
      rw [mkSt_ch] at c17
      simpa using c17
    · rw [if_neg c18] at h
      simp only [Option.some.injEq, Prod.mk.injEq] at h
      rw [← h.1] at hkind
      simp [new_token] at hkind

/-- C8 counterexample: the claim says a character begins an integer
literal exactly when it is a decimal digit, and that the token text is a
digit string.  The vulgar-fraction-one-half character (code point 189,
Unicode category No) is not a decimal digit, yet the scanner returns an
Int token for it; and scanning `123½` yields a single Int token whose
text is `123½`, not the digit run `123`. -/
theorem C8_not_decimal_digit_starts_int :
    nextF 2 (Lexer.new [ '½' ]) =
      some ({ kind := TokenKind.Int, literal := [ '½' ] }, mkSt [ '½' ] 1)
    ∧ Char.isDigit '½' = false
    ∧ nextF 5 (Lexer.new [ '1', '2', '3', '½' ]) =
      some ({ kind := TokenKind.Int, literal := [ '1', '2', '3', '½' ] },
        mkSt [ '1', '2', '3', '½' ] 4) :=
  ⟨by decide, by decide, by decide⟩

/-- C8 (amended): a character begins an integer literal exactly when it
passes the numeric test `char::is_numeric` (Unicode categories Nd, Nl,
No — a strict superset of the decimal digits) and fails the letter test,
the identifier branch being checked first; `next` then greedily consumes
the maximal run of numeric characters — not merely of decimal digits —
and returns an Int token whose text is exactly that run, with no
truncation and no added characters.  Decimal-digit runs are the special
case the original claim described: for any maximal run of decimal digits
D as the entire input, scanning yields exactly one Int token whose text
equals D, followed by end-of-input. -/
theorem C8_integer_literal_amended :
    (∀ (D rest i : List Char) (p fuel : Nat),
      D ≠ [] →
      (∀ c ∈ D, is_num c = true) →
      is_letter (chAt i p) = false →
      i.drop p = D ++ rest →
      is_num (chAt i (p + D.length)) = false →
      nextF (D.length + fuel + 1) (mkSt i p) =
        some ({ kind := TokenKind.Int, literal := D }, mkSt i (p + D.length)))
    ∧ (∀ (i : List Char) (p fuel : Nat) (t : Token) (l' : Lexer),
      is_ascii_whitespace (chAt i p) = false →
      (chAt i p = '/' → chAt i (p + 1) = '/' → False) →
      nextF (fuel + 1) (mkSt i p) = some (t, l') →
      t.kind = TokenKind.Int →
      is_num (chAt i p) = true ∧ is_letter (chAt i p) = false)
    ∧ (∀ (D : List Char) (fuel : Nat),
      D ≠ [] →
      (∀ c ∈ D, Char.isDigit c = true) →
      nextF (D.length + fuel + 1) (Lexer.new D) =
        some ({ kind := TokenKind.Int, literal := D }, mkSt D D.length)
      ∧ nextF (fuel + 1) (mkSt D D.length) =
        some (new_token TokenKind.Eof '\x00', mkSt D (D.length + 1))) := by
  have main : ∀ (D rest i : List Char) (p fuel : Nat),
      D ≠ [] →
      (∀ c ∈ D, is_num c = true) →
      is_letter (chAt i p) = false →
      i.drop p = D ++ rest →
      is_num (chAt i (p + D.length)) = false →
      nextF (D.length + fuel + 1) (mkSt i p) =
        some ({ kind := TokenKind.Int, literal := D }, mkSt i (p + D.length)) := by
    intro D rest i p fuel hne hall hlet hdrop hstop
    have hch : is_num (chAt i p) = true := by
      cases D with
      | nil => exact absurd rfl hne
      | cons c D =>
        obtain ⟨hc, _⟩ := drop_cons_parts hdrop
        rw [hc]
        exact hall c (List.mem_cons_self c D)
    rw [show D.length + fuel + 1 = (D.length + fuel) + 1 from rfl,
      nextF_num i p (D.length + fuel) hch hlet]
    rw [show (D.length + fuel) + 1 = D.length + fuel + 1 from rfl,
      read_numF_run D rest i p fuel hdrop hall hstop]
  refine ⟨main, nextF_int_start, ?_⟩
  intro D fuel hne hall
  constructor
  · rw [Lexer_new_eq]
    have hnum : ∀ c ∈ D, is_num c = true := fun c hc => is_num_of_digit (hall c hc)
    have hlet : is_letter (chAt D 0) = false := by
      cases D with
      | nil => exact absurd rfl hne
      | cons c Dt =>
        have hhd : chAt (c :: Dt) 0 = c := rfl
        rw [hhd]
        exact digit_not_letter (hall c (List.mem_cons_self c Dt))
    have := main D [] D 0 fuel hne hnum hlet (by simp) ?_
    · simpa using this
    · rw [chAt_of_length_le _ _ (by simp)]
      decide
  · exact nextF_eof D D.length fuel (Nat.le_refl D.length)

/-- C8 witness: the single digit `5` as the whole input scans to an Int
token with text `5`, followed by end-of-input. -/
theorem C8_integer_literal_amended_witness :
    nextF 2 (Lexer.new [ '5' ]) =
      some ({ kind := TokenKind.Int, literal := [ '5' ] }, mkSt [ '5' ] 1)
    ∧ nextF 1 (mkSt [ '5' ] 1) =
      some (new_token TokenKind.Eof '\x00', mkSt [ '5' ] 2) :=
  C8_integer_literal_amended.2.2 [ '5' ] 0 (by decide) (by decide)

/-! ### Cursor invariant -/

/-- The cursor invariant of the scanner state: the read position is one
ahead of the position, and the current character is the input character at
the position (the null sentinel past the end). -/
def CursorInv (l : Lexer) : Prop :=
  l.read_pos = l.pos + 1 ∧ l.ch = chAt l.input l.pos

/-- Advancing establishes the invariant from any state. -/
lemma read_char_inv (l : Lexer) : CursorInv (read_char l) := by
  unfold CursorInv read_char
  refine ⟨rfl, ?_⟩
  simp only []
  split
  · rw [chAt_of_length_le _ _ (by assumption)]
  · rfl

lemma skip_whitespaceF_inv :
    ∀ (fuel : Nat) (l l' : Lexer), skip_whitespaceF fuel l = some l' → CursorInv l → CursorInv l' := by
  intro fuel
  induction fuel with
  | zero => intro l l' h; exact absurd h (by simp [skip_whitespaceF])
  | succ fuel ih =>
    intro l l' h hInv
    unfold skip_whitespaceF at h
    split at h
    · exact ih _ _ h (read_char_inv l)
    · simp only [Option.some.injEq] at h
      rw [← h]
      exact hInv

lemma skip_commentF_inv :
    ∀ (fuel : Nat) (l l' : Lexer), skip_commentF fuel l = some l' → CursorInv l → CursorInv l' := by
  intro fuel
  induction fuel with
  | zero => intro l l' h; exact absurd h (by simp [skip_commentF])
  | succ fuel ih =>
    intro l l' h hInv
    unfold skip_commentF at h
    split at h
    · exact ih _ _ h (read_char_inv l)
    · simp only [Option.some.injEq] at h
      rw [← h]
      exact hInv

lemma read_identifierF_inv :
    ∀ (fuel : Nat) (l : Lexer) (cs : List Char) (l' : Lexer),
      read_identifierF fuel l = some (cs, l') → CursorInv l → CursorInv l' := by
  intro fuel
  induction fuel with
  | zero => intro l cs l' h; exact absurd h (by simp [read_identifierF])
  | succ fuel ih =>
    intro l cs l' h hInv
    unfold read_identifierF at h
    split at h
    · cases hrec : read_identifierF fuel (read_char l) with
      | none => rw [hrec] at h; exact absurd h (by simp)
      | some r =>
        obtain ⟨cs0, l0⟩ := r
        rw [hrec] at h
        simp only [Option.some.injEq, Prod.mk.injEq] at h
        rw [← h.2]
        exact ih _ _ _ hrec (read_char_inv l)
    · simp only [Option.some.injEq, Prod.mk.injEq] at h
      rw [← h.2]
      exact hInv

lemma read_numF_inv :
    ∀ (fuel : Nat) (l : Lexer) (cs : List Char) (l' : Lexer),
      read_numF fuel l = some (cs, l') → CursorInv l → CursorInv l' := by
  intro fuel
  induction fuel with
  | zero => intro l cs l' h; exact absurd h (by simp [read_numF])
  | succ fuel ih =>
    intro l cs l' h hInv
    unfold read_numF at h
    split at h
    · cases hrec : read_numF fuel (read_char l) with
      | none => rw [hrec] at h; exact absurd h (by simp)
      | some r =>
        obtain ⟨cs0, l0⟩ := r
        rw [hrec] at h
        simp only [Option.some.injEq, Prod.mk.injEq] at h
        rw [← h.2]
        exact ih _ _ _ hrec (read_char_inv l)
    · simp only [Option.some.injEq, Prod.mk.injEq] at h
      rw [← h.2]
      exact hInv

lemma read_strF_inv :
    ∀ (fuel : Nat) (l : Lexer) (cs : List Char) (l' : Lexer),
      read_strF fuel l = some (cs, l') → CursorInv l → CursorInv l' := by
  intro fuel
  induction fuel with
  | zero => intro l cs l' h; exact absurd h (by simp [read_strF])
  | succ fuel ih =>
    intro l cs l' h hInv
    unfold read_strF at h
    split at h
    · cases hrec : read_strF fuel (read_char l) with
      | none => rw [hrec] at h; exact absurd h (by simp)
      | some r =>
        obtain ⟨cs0, l0⟩ := r
        rw [hrec] at h
        simp only [Option.some.injEq, Prod.mk.injEq] at h
        rw [← h.2]
        exact ih _ _ _ hrec (read_char_inv l)
    · simp only [Option.some.injEq, Prod.mk.injEq] at h
      rw [← h.2]
      exact hInv

/-- The invariant is preserved by every terminating call to `next`. -/
lemma nextF_inv :
    ∀ (fuel : Nat) (l : Lexer) (t : Token) (l' : Lexer),
      nextF fuel l = some (t, l') → CursorInv l → CursorInv l' := by
  intro fuel
  induction fuel with
  | zero => intro l t l' h; exact Option.noConfusion h
  | succ fuel ih =>
    intro l t l' h hInv
    unfold nextF at h
    split at h
    · exact Option.noConfusion h
    · rename_i l1 hsw
      have hInv1 : CursorInv l1 := skip_whitespaceF_inv _ _ _ hsw hInv
      by_cases c1 : l1.ch = ';'
      · rw [if_pos c1] at h
        simp only [Option.some.injEq, Prod.mk.injEq] at h
        rw [← h.2]
        exact read_char_inv _
      rw [if_neg c1] at h
      by_cases c2 : l1.ch = ','
      · rw [if_pos c2] at h
        simp only [Option.some.injEq, Prod.mk.injEq] at h
        rw [← h.2]
        exact read_char_inv _
      rw [if_neg c2] at h
      by_cases c3 : l1.ch = '('
      · rw [if_pos c3] at h
        simp only [Option.some.injEq, Prod.mk.injEq] at h
        rw [← h.2]
        exact read_char_inv _
      rw [if_neg c3] at h
      by_cases c4 : l1.ch = ')'
      · rw [if_pos c4] at h
        simp only [Option.some.injEq, Prod.mk.injEq] at h
        rw [← h.2]
        exact read_char_inv _
      rw [if_neg c4] at h
      by_cases c5 : l1.ch = '\x7b'
      · rw [if_pos c5] at h
        simp only [Option.some.injEq, Prod.mk.injEq] at h
        rw [← h.2]
        exact read_char_inv _
      rw [if_neg c5] at h
      by_cases c6 : l1.ch = '\x7d'
      · rw [if_pos c6] at h
        simp only [Option.some.injEq, Prod.mk.injEq] at h
        rw [← h.2]
        exact read_char_inv _
      rw [if_neg c6] at h
      by_cases c7 : l1.ch = '+'
      · rw [if_pos c7] at h
        simp only [Option.some.injEq, Prod.mk.injEq] at h
        rw [← h.2]
        exact read_char_inv _
      rw [if_neg c7] at h
      by_cases c8 : l1.ch = '='
      · rw [if_pos c8] at h
        by_cases c8b : peek_char l1 = '='
        · rw [if_pos c8b] at h
          simp only [Option.some.injEq, Prod.mk.injEq] at h
          rw [← h.2]
          exact read_char_inv _
        · rw [if_neg c8b] at h
          simp only [Option.some.injEq, Prod.mk.injEq] at h
          rw [← h.2]
          exact read_char_inv _
      rw [if_neg c8] at h
      by_cases c9 : l1.ch = '!'
      · rw [if_pos c9] at h
        by_cases c9b : peek_char l1 = '='
        · rw [if_pos c9b] at h
          simp only [Option.some.injEq, Prod.mk.injEq] at h
          rw [← h.2]
          exact read_char_inv _
        · rw [if_neg c9b] at h
          simp only [Option.some.injEq, Prod.mk.injEq] at h
          rw [← h.2]
          exact read_char_inv _
      rw [if_neg c9] at h
      by_cases c10 : l1.ch = '-'
      · rw [if_pos c10] at h
        simp only [Option.some.injEq, Prod.mk.injEq] at h
        rw [← h.2]
        exact read_char_inv _
      rw [if_neg c10] at h
      by_cases c11 : l1.ch = '/'
      · rw [if_pos c11] at h
        by_cases c11b : peek_char l1 = '/'
        · rw [if_pos c11b] at h
          cases heq : skip_commentF (fuel + 1) l1 with
          | none => rw [heq] at h; exact absurd h (by simp)
          | some l2 =>
            rw [heq] at h
            have h2 : nextF fuel l2 = some (t, l') := h
            exact ih _ _ _ h2 (skip_commentF_inv _ _ _ heq hInv1)
        · rw [if_neg c11b] at h
          simp only [Option.some.injEq, Prod.mk.injEq] at h
          rw [← h.2]
          exact read_char_inv _
      rw [if_neg c11] at h
      by_cases c12 : l1.ch = '*'
      · rw [if_pos c12] at h
        simp only [Option.some.injEq, Prod.mk.injEq] at h
        rw [← h.2]
        exact read_char_inv _
      rw [if_neg c12] at h
      by_cases c13 : l1.ch = '<'
      · rw [if_pos c13] at h
        simp only [Option.some.injEq, Prod.mk.injEq] at h
        rw [← h.2]
        exact read_char_inv _
      rw [if_neg c13] at h
      by_cases c14 : l1.ch = '>'
      · rw [if_pos c14] at h
        simp only [Option.some.injEq, Prod.mk.injEq] at h
        rw [← h.2]
        exact read_char_inv _
      rw [if_neg c14] at h
      by_cases c15 : l1.ch = '"'
      · rw [if_pos c15] at h
        cases heq : read_strF (fuel + 1) (read_char l1) with
        | none => rw [heq] at h; exact absurd h (by simp)
        | some r =>
          obtain ⟨lit, l2⟩ := r
          rw [heq] at h
          have h2 : some ({ kind := TokenKind.Str, literal := lit }, read_char l2) =
              some (t, l') := h
          simp only [Option.some.injEq, Prod.mk.injEq] at h2
          rw [← h2.2]
          exact read_char_inv _
      rw [if_neg c15] at h
      by_cases c16 : l1.ch = '\x00'
      · rw [if_pos c16] at h
        simp only [Option.some.injEq, Prod.mk.injEq] at h
        rw [← h.2]
        exact read_char_inv _
      rw [if_neg c16] at h
      by_cases c17 : is_letter l1.ch = true
      · rw [if_pos c17] at h
        cases heq : read_identifierF (fuel + 1) l1 with
        | none => rw [heq] at h; exact absurd h (by simp)
        | some r =>
          obtain ⟨lit, l2⟩ := r
          rw [heq] at h
          have h2 : some ({ kind := lookup_identifier lit, literal := lit }, l2) =
              some (t, l') := h
          simp only [Option.some.injEq, Prod.mk.injEq] at h2
          rw [← h2.2]
          exact read_identifierF_inv _ _ _ _ heq hInv1
      rw [if_neg c17] at h
      by_cases c18 : is_num l1.ch = true
      · rw [if_pos c18] at h
        cases heq : read_numF (fuel + 1) l1 with
        | none => rw [heq] at h; exact absurd h (by simp)
        | some r =>
          obtain ⟨lit, l2⟩ := r
          rw [heq] at h
          have h2 : some ({ kind := TokenKind.Int, literal := lit }, l2) = some (t, l') := h
          simp only [Option.some.injEq, Prod.mk.injEq] at h2
          rw [← h2.2]
          exact read_numF_inv _ _ _ _ heq hInv1
      rw [if_neg c18] at h
      simp only [Option.some.injEq, Prod.mk.injEq] at h
      rw [← h.2]
      exact hInv1

/-- C10: after construction and after every terminating call to `next`,
the cursor satisfies the invariant: the read position is one ahead of the
position, and the current character is the input character at the position
when in range and the null sentinel otherwise. -/
theorem C10_cursor_invariant :
    (∀ i : List Char, CursorInv (Lexer.new i))
    ∧ (∀ (fuel : Nat) (l : Lexer) (t : Token) (l' : Lexer),
        CursorInv l → nextF fuel l = some (t, l') → CursorInv l') := by
  constructor
  · intro i
    rw [Lexer_new_eq]
    exact ⟨rfl, rfl⟩
  · intro fuel l t l' hInv h
    exact nextF_inv fuel l t l' h hInv

/-- C10 witness: the invariant holds for the state after scanning one
semicolon token. -/
theorem C10_cursor_invariant_witness : CursorInv (mkSt [ ';' ] 1) :=
  C10_cursor_invariant.2 1 (Lexer.new [ ';' ]) (new_token TokenKind.Semicolon ';')
    (mkSt [ ';' ] 1) (C10_cursor_invariant.1 [ ';' ]) (by decide)
